import Mathlib

/-!
Shallow embedding of `src/backend/server.py` (FastAPI backend of the
Advaithaa Infra marketing site), covering the session manager, the admin
CRUD handlers, the enquiry submission flow with its background email
dispatch, and the seed-data route.

Conventions of the embedding:
- the Python dict `active_sessions` is a finite map `String → Option Session`;
- Mongo collections are lists of typed documents; `insert_one` appends,
  `update_one`/`delete_one` act on the first document matching the filter
  and report a matched/deleted count;
- wall-clock instants are passed explicitly: `now : Int` is the value of
  `datetime.now(timezone.utc).timestamp()` in seconds and `nowIso : String`
  the value of `datetime.now(timezone.utc).isoformat()`;
- nondeterministically generated values (`secrets.token_urlsafe(32)`,
  `str(uuid.uuid4())[:8]`) are passed as explicit parameters;
- a raised `HTTPException(status_code, detail)` is the result
  `HResult.error status detail`; I/O failures of external collaborators
  (Mongo insert, SMTP transport) are boolean parameters selecting the
  branch the Python runtime would take.
-/

-- ==================== --
-- Session manager state (server.py: `active_sessions = {}`)
-- ==================== --

structure Session where
  username : String
  created : Int
deriving DecidableEq

abbrev Sessions := String → Option Session

/-- The empty `active_sessions` table the process starts with. -/
def emptySessions : Sessions := fun _ => none

/-- HTTP handler outcome: a returned value or a raised `HTTPException`. -/
inductive HResult (α : Type) where
  | ok (value : α)
  | error (status : Nat) (detail : String)
deriving DecidableEq

structure MsgResponse where
  success : Bool
  message : String
deriving DecidableEq

-- ==================== --
-- Auth functions (server.py:131-145)
-- ==================== --

/-- `verify_token` (server.py:131-137): a token is accepted iff it is in
`active_sessions` and was created strictly less than 86400 seconds ago. -/
def verify_token (active_sessions : Sessions) (now : Int) (token : String) : Bool :=
  match active_sessions token with
  | some session => decide (now - session.created < 86400)
  | none => false

/-- `create_session` (server.py:139-145): stores
`{username, created := now}` under the freshly generated `token`
(passed explicitly here) and returns the token. -/
def create_session (active_sessions : Sessions) (username : String) (token : String)
    (now : Int) : Sessions × String :=
  (fun t => if t = token then some ⟨username, now⟩ else active_sessions t, token)

/-- `admin_logout` (server.py:259-263): deletes the entry if present and
always returns `{"success": True, "message": "Logged out"}`. -/
def admin_logout (active_sessions : Sessions) (token : String) : Sessions × MsgResponse :=
  (if (active_sessions token).isSome then
    fun t => if t = token then none else active_sessions t
   else active_sessions,
   ⟨true, "Logged out"⟩)

-- ==================== --
-- Session traces: states reachable through issue (`create_session`)
-- and revoke (`admin_logout`)
-- ==================== --

inductive SessionOp where
  | issue (username token : String) (now : Int)
  | revoke (token : String)
deriving DecidableEq

def applyOp (active_sessions : Sessions) : SessionOp → Sessions
  | .issue username token now => (create_session active_sessions username token now).1
  | .revoke token => (admin_logout active_sessions token).1

/-- The session table produced by running a trace of issue/revoke
operations from the initial empty table. -/
def applyOps (ops : List SessionOp) : Sessions :=
  ops.foldl applyOp emptySessions

/-- The tokens returned by `create_session` along a trace. -/
def issuedTokens : List SessionOp → List String
  | [] => []
  | .issue _ token _ :: rest => token :: issuedTokens rest
  | .revoke _ :: rest => issuedTokens rest

theorem verify_token_iff (active_sessions : Sessions) (now : Int) (token : String) :
    verify_token active_sessions now token = true ↔
      ∃ session, active_sessions token = some session ∧ now - session.created < 86400 := by
  unfold verify_token
  cases h : active_sessions token with
  | none => simp
  | some session => simp [h]

theorem applyOps_not_issued (ops : List SessionOp) (token : String)
    (h : token ∉ issuedTokens ops) : applyOps ops token = none := by
  suffices H : ∀ (s : Sessions), s token = none →
      List.foldl applyOp s ops token = none by
    exact H emptySessions rfl
  induction ops with
  | nil => intro s hs; simpa using hs
  | cons op rest ih =>
    intro s hs
    cases op with
    | issue username tok now =>
      have hne : token ≠ tok := by
        intro hEq
        exact h (by simp [issuedTokens, hEq])
      have h' : token ∉ issuedTokens rest := by
        intro hmem
        exact h (by simp [issuedTokens, hmem])
      have ih' := ih h'
      apply ih'
      simp [applyOp, create_session, hne, hs]
    | revoke tok =>
      have h' : token ∉ issuedTokens rest := by
        intro hmem
        exact h (by simp [issuedTokens, hmem])
      apply ih h'
      simp only [applyOp, admin_logout]
      by_cases hsome : (s tok).isSome
      · simp only [hsome, if_true]
        by_cases heq : token = tok
        · simp [heq]
        · simp [heq, hs]
      · simp [hsome, hs]

/-- C4: `verify_token` returns true iff the token is present in
`active_sessions` and strictly fewer than 86400 seconds have elapsed since
its `created` timestamp (so it is false at or after exactly 24 hours); and
over any trace of issue/revoke operations from the empty table, it is
false for every token never returned by `create_session`. -/
theorem verify_token_correct (ops : List SessionOp) (now : Int) (token : String) :
    (verify_token (applyOps ops) now token = true ↔
      ∃ session, applyOps ops token = some session ∧ now - session.created < 86400)
    ∧ (token ∉ issuedTokens ops → verify_token (applyOps ops) now token = false) := by
  constructor
  · exact verify_token_iff (applyOps ops) now token
  · intro h
    unfold verify_token
    rw [applyOps_not_issued ops token h]

/-- Witness for C4 at a concrete trace: `"ghost"` is never issued along
the trace, so validating it fails. -/
theorem verify_token_correct_witness :
    verify_token (applyOps [.issue "admin" "tokA" 0, .revoke "tokB"]) 10 "ghost" = false :=
  (verify_token_correct [.issue "admin" "tokA" 0, .revoke "tokB"] 10 "ghost").2
    (by decide)

/-- C5: issuing a token with `create_session` and immediately checking it
with `verify_token` yields true; after revoking it with `admin_logout`,
checking the same token yields false. -/
theorem issue_validate_revoke_roundtrip (active_sessions : Sessions)
    (username token : String) (now : Int) :
    verify_token (create_session active_sessions username token now).1 now token = true
    ∧ verify_token
        (admin_logout (create_session active_sessions username token now).1 token).1
        now token = false := by
  constructor
  · simp [verify_token, create_session]
  · simp [verify_token, admin_logout, create_session]

/-- C6: `admin_logout` on a token absent from the table leaves the table
identical, still reports success, leaves every other entry unchanged for
any table, and revoking the same token twice is the same as revoking it
once. -/
theorem revoke_unknown_noop (active_sessions : Sessions) (token : String) :
    (active_sessions token = none → (admin_logout active_sessions token).1 = active_sessions)
    ∧ (admin_logout active_sessions token).2 = ⟨true, "Logged out"⟩
    ∧ (∀ other, other ≠ token →
        (admin_logout active_sessions token).1 other = active_sessions other)
    ∧ (admin_logout (admin_logout active_sessions token).1 token).1 =
        (admin_logout active_sessions token).1 := by
  refine ⟨?_, rfl, ?_, ?_⟩
  · intro h
    simp [admin_logout, h]
  · intro other hne
    simp only [admin_logout]
    by_cases hsome : (active_sessions token).isSome
    · simp [hsome, hne]
    · simp [hsome]
  · simp only [admin_logout]
    by_cases hsome : (active_sessions token).isSome
    · simp [hsome]
    · simp [hsome]

/-- Witness for C6: revoking the unknown token `"b"` from a table holding
only `"a"` leaves the table unchanged. -/
theorem revoke_unknown_noop_witness :
    (admin_logout (create_session emptySessions "admin" "a" 0).1 "b").1 =
      (create_session emptySessions "admin" "a" 0).1 :=
  (revoke_unknown_noop (create_session emptySessions "admin" "a" 0).1 "b").1 rfl

-- ==================== --
-- Content store: typed documents for the `projects`, `jobs`, `enquiries`
-- Mongo collections (server.py models, lines 63-126)
-- ==================== --

/-- `ProjectCreate` (server.py:68-81): the request schema for creating a
project; `gallery` entries and `highlights` are free-form string dicts. -/
structure ProjectCreate where
  title : String
  description : String
  category : String
  sub_category : String
  location : String
  image_url : String
  gallery : List (List (String × String))
  features : List String
  highlights : List (String × String)
  is_featured : Bool
deriving DecidableEq

/-- `ProjectUpdate` (server.py:83-93): every field optional; a `none`
field is dropped from the update dict. -/
structure ProjectUpdate where
  title : Option String := none
  description : Option String := none
  category : Option String := none
  sub_category : Option String := none
  location : Option String := none
  image_url : Option String := none
  gallery : Option (List (List (String × String))) := none
  features : Option (List String) := none
  highlights : Option (List (String × String)) := none
  is_featured : Option Bool := none
deriving DecidableEq

/-- A stored project document: creation fields plus the app-assigned `id`,
the `created_at` stamp, and `updated_at` once an update has run. -/
structure ProjectDoc where
  id : String
  title : String
  description : String
  category : String
  sub_category : String
  location : String
  image_url : String
  gallery : List (List (String × String))
  features : List String
  highlights : List (String × String)
  is_featured : Bool
  created_at : String
  updated_at : Option String := none
deriving DecidableEq

/-- `JobCreate` (server.py:95-105). -/
structure JobCreate where
  title : String
  department : String
  location : String
  type : String
  description : String
  requirements : List String
  is_active : Bool
deriving DecidableEq

/-- `JobUpdate` (server.py:107-114). -/
structure JobUpdate where
  title : Option String := none
  department : Option String := none
  location : Option String := none
  type : Option String := none
  description : Option String := none
  requirements : Option (List String) := none
  is_active : Option Bool := none
deriving DecidableEq

/-- A stored job document. -/
structure JobDoc where
  id : String
  title : String
  department : String
  location : String
  type : String
  description : String
  requirements : List String
  is_active : Bool
  created_at : String
  updated_at : Option String := none
deriving DecidableEq

/-- `EnquiryRequest` (server.py:120-126) after pydantic validation. -/
structure EnquiryRequest where
  name : String
  phone : String
  email : Option String := none
  project : Option String := none
  message : Option String := none
  form_type : Option String := some "general"
deriving DecidableEq

/-- A stored enquiry document (server.py:279-289). -/
structure EnquiryDoc where
  id : String
  name : String
  phone : String
  email : Option String
  project : Option String
  message : Option String
  form_type : Option String
  status : String
  created_at : String
deriving DecidableEq

/-- The document store: the three collections the backend touches. -/
structure Store where
  projects : List ProjectDoc
  jobs : List JobDoc
  enquiries : List EnquiryDoc
deriving DecidableEq

/-- Mongo `update_one`: rewrite the first list element matching the
filter, returning the new list and the matched count (0 or 1). -/
def updateFirst {α : Type} (matchesDoc : α → Bool) (f : α → α) : List α → List α × Nat
  | [] => ([], 0)
  | x :: xs =>
    if matchesDoc x then (f x :: xs, 1)
    else
      let r := updateFirst matchesDoc f xs
      (x :: r.1, r.2)

/-- Mongo `delete_one`: remove the first list element matching the
filter, returning the new list and the deleted count (0 or 1). -/
def deleteFirst {α : Type} (matchesDoc : α → Bool) : List α → List α × Nat
  | [] => ([], 0)
  | x :: xs =>
    if matchesDoc x then (xs, 1)
    else
      let r := deleteFirst matchesDoc xs
      (x :: r.1, r.2)

-- ==================== --
-- Admin CRUD handlers (server.py:337-444)
-- ==================== --

structure CreateResponse where
  success : Bool
  id : String
  message : String
deriving DecidableEq

/-- The doc built by `create_project` (server.py:343-347):
`{"id": project_id, **project.model_dump(), "created_at": now}`. -/
def mkProjectDoc (project_id : String) (project : ProjectCreate) (createdAt : String) :
    ProjectDoc :=
  { id := project_id, title := project.title, description := project.description,
    category := project.category, sub_category := project.sub_category,
    location := project.location, image_url := project.image_url,
    gallery := project.gallery, features := project.features,
    highlights := project.highlights, is_featured := project.is_featured,
    created_at := createdAt, updated_at := none }

/-- `create_project` (server.py:337-349). -/
def create_project (st : Store) (active_sessions : Sessions) (now : Int) (nowIso : String)
    (project_id : String) (project : ProjectCreate) (token : String) :
    Store × HResult CreateResponse :=
  if !(verify_token active_sessions now token) then (st, .error 401 "Unauthorized")
  else
    ({ st with projects := st.projects ++ [mkProjectDoc project_id project nowIso] },
     .ok ⟨true, project_id, "Project created"⟩)

/-- The dict comprehension `{k: v for k, v in project.model_dump().items()
if v is not None}` is empty iff every optional field is `none`. -/
def ProjectUpdate.update_data_isEmpty (u : ProjectUpdate) : Bool :=
  u.title.isNone && u.description.isNone && u.category.isNone && u.sub_category.isNone &&
  u.location.isNone && u.image_url.isNone && u.gallery.isNone && u.features.isNone &&
  u.highlights.isNone && u.is_featured.isNone

/-- The `$set` of the non-null update fields plus `updated_at` applied to
one stored project document. -/
def applyProjectUpdate (doc : ProjectDoc) (u : ProjectUpdate) (updatedAt : String) :
    ProjectDoc :=
  { doc with
    title := u.title.getD doc.title,
    description := u.description.getD doc.description,
    category := u.category.getD doc.category,
    sub_category := u.sub_category.getD doc.sub_category,
    location := u.location.getD doc.location,
    image_url := u.image_url.getD doc.image_url,
    gallery := u.gallery.getD doc.gallery,
    features := u.features.getD doc.features,
    highlights := u.highlights.getD doc.highlights,
    is_featured := u.is_featured.getD doc.is_featured,
    updated_at := some updatedAt }

/-- `update_project` (server.py:351-369): token gate, then empty-update
gate, then `update_one({"id": project_id}, {"$set": update_data})`, then
404 if nothing matched. -/
def update_project (st : Store) (active_sessions : Sessions) (now : Int) (nowIso : String)
    (project_id : String) (project : ProjectUpdate) (token : String) :
    Store × HResult MsgResponse :=
  if !(verify_token active_sessions now token) then (st, .error 401 "Unauthorized")
  else if project.update_data_isEmpty then (st, .error 400 "No fields to update")
  else
    let r := updateFirst (fun d => d.id == project_id)
      (fun d => applyProjectUpdate d project nowIso) st.projects
    if r.2 == 0 then ({ st with projects := r.1 }, .error 404 "Project not found")
    else ({ st with projects := r.1 }, .ok ⟨true, "Project updated"⟩)

/-- `delete_project` (server.py:371-380). -/
def delete_project (st : Store) (active_sessions : Sessions) (now : Int)
    (project_id : String) (token : String) : Store × HResult MsgResponse :=
  if !(verify_token active_sessions now token) then (st, .error 401 "Unauthorized")
  else
    let r := deleteFirst (fun d => d.id == project_id) st.projects
    if r.2 == 0 then ({ st with projects := r.1 }, .error 404 "Project not found")
    else ({ st with projects := r.1 }, .ok ⟨true, "Project deleted"⟩)

/-- The doc built by `create_job` (server.py:406-411). -/
def mkJobDoc (job_id : String) (job : JobCreate) (createdAt : String) : JobDoc :=
  { id := job_id, title := job.title, department := job.department,
    location := job.location, type := job.type, description := job.description,
    requirements := job.requirements, is_active := job.is_active,
    created_at := createdAt, updated_at := none }

/-- `create_job` (server.py:401-413). -/
def create_job (st : Store) (active_sessions : Sessions) (now : Int) (nowIso : String)
    (job_id : String) (job : JobCreate) (token : String) :
    Store × HResult CreateResponse :=
  if !(verify_token active_sessions now token) then (st, .error 401 "Unauthorized")
  else
    ({ st with jobs := st.jobs ++ [mkJobDoc job_id job nowIso] },
     .ok ⟨true, job_id, "Job created"⟩)

/-- Emptiness of the non-null field dict of a `JobUpdate`. -/
def JobUpdate.update_data_isEmpty (u : JobUpdate) : Bool :=
  u.title.isNone && u.department.isNone && u.location.isNone && u.type.isNone &&
  u.description.isNone && u.requirements.isNone && u.is_active.isNone

/-- The `$set` of the non-null update fields plus `updated_at` applied to
one stored job document. -/
def applyJobUpdate (doc : JobDoc) (u : JobUpdate) (updatedAt : String) : JobDoc :=
  { doc with
    title := u.title.getD doc.title,
    department := u.department.getD doc.department,
    location := u.location.getD doc.location,
    type := u.type.getD doc.type,
    description := u.description.getD doc.description,
    requirements := u.requirements.getD doc.requirements,
    is_active := u.is_active.getD doc.is_active,
    updated_at := some updatedAt }

/-- `update_job` (server.py:415-433). -/
def update_job (st : Store) (active_sessions : Sessions) (now : Int) (nowIso : String)
    (job_id : String) (job : JobUpdate) (token : String) :
    Store × HResult MsgResponse :=
  if !(verify_token active_sessions now token) then (st, .error 401 "Unauthorized")
  else if job.update_data_isEmpty then (st, .error 400 "No fields to update")
  else
    let r := updateFirst (fun d => d.id == job_id)
      (fun d => applyJobUpdate d job nowIso) st.jobs
    if r.2 == 0 then ({ st with jobs := r.1 }, .error 404 "Job not found")
    else ({ st with jobs := r.1 }, .ok ⟨true, "Job updated"⟩)

/-- `delete_job` (server.py:435-444). -/
def delete_job (st : Store) (active_sessions : Sessions) (now : Int)
    (job_id : String) (token : String) : Store × HResult MsgResponse :=
  if !(verify_token active_sessions now token) then (st, .error 401 "Unauthorized")
  else
    let r := deleteFirst (fun d => d.id == job_id) st.jobs
    if r.2 == 0 then ({ st with jobs := r.1 }, .error 404 "Job not found")
    else ({ st with jobs := r.1 }, .ok ⟨true, "Job deleted"⟩)

-- ==================== --
-- Image upload (server.py:449-472); the uploads directory is a finite
-- list of (filename, bytes) pairs
-- ==================== --

structure UploadFileIn where
  filename : String
  content_type : String
  content : String
deriving DecidableEq

structure UploadResponse where
  success : Bool
  url : String
  filename : String
  type : String
deriving DecidableEq

/-- `upload_image` (server.py:449-472): token gate, content-type gate,
then the file is written under `file_id.ext`. -/
def upload_image (active_sessions : Sessions) (now : Int) (file : UploadFileIn)
    (token : String) (file_id : String) (uploads : List (String × String)) :
    List (String × String) × HResult UploadResponse :=
  if !(verify_token active_sessions now token) then (uploads, .error 401 "Unauthorized")
  else if !(file.content_type.startsWith "image/" || file.content_type.startsWith "video/")
  then (uploads, .error 400 "File must be an image or video")
  else
    let file_extension :=
      if file.filename.contains '.' then (file.filename.splitOn ".").getLastD "jpg"
      else "jpg"
    let filename := file_id ++ "." ++ file_extension
    let media_type := if file.content_type.startsWith "video/" then "video" else "image"
    ((filename, file.content) :: uploads,
     .ok ⟨true, "/uploads/" ++ filename, filename, media_type⟩)

-- ==================== --
-- C3 / C7 / C8: gate-then-mutate, empty updates, partial merge
-- ==================== --

/-- C3: every mutating admin handler — create/update/delete of projects
and jobs, and the media upload — called with a token `verify_token`
rejects returns the 401 "Unauthorized" error with the content store (and
the uploads directory) left exactly as it was: the gate fires before any
store access. -/
theorem invalid_token_rejects_all_mutations (st : Store) (active_sessions : Sessions)
    (now : Int) (nowIso : String) (project_id : String) (pc : ProjectCreate)
    (pu : ProjectUpdate) (job_id : String) (jc : JobCreate) (ju : JobUpdate)
    (token : String) (file : UploadFileIn) (file_id : String)
    (uploads : List (String × String))
    (hv : verify_token active_sessions now token = false) :
    create_project st active_sessions now nowIso project_id pc token =
      (st, .error 401 "Unauthorized")
    ∧ update_project st active_sessions now nowIso project_id pu token =
      (st, .error 401 "Unauthorized")
    ∧ delete_project st active_sessions now project_id token =
      (st, .error 401 "Unauthorized")
    ∧ create_job st active_sessions now nowIso job_id jc token =
      (st, .error 401 "Unauthorized")
    ∧ update_job st active_sessions now nowIso job_id ju token =
      (st, .error 401 "Unauthorized")
    ∧ delete_job st active_sessions now job_id token =
      (st, .error 401 "Unauthorized")
    ∧ upload_image active_sessions now file token file_id uploads =
      (uploads, .error 401 "Unauthorized") := by
  refine ⟨?_, ?_, ?_, ?_, ?_, ?_, ?_⟩ <;>
    simp [create_project, update_project, delete_project, create_job, update_job,
      delete_job, upload_image, hv]

/-- A sample store used to instantiate the handler theorems. -/
def sampleStore : Store :=
  { projects := [], jobs := [], enquiries := [] }

/-- Witness for C3: against the empty session table every token is
invalid, and a delete on the job collection is refused with 401 and no
store change. -/
theorem invalid_token_rejects_all_mutations_witness :
    delete_job sampleStore emptySessions 0 "eng001" "stale" =
      (sampleStore, .error 401 "Unauthorized") :=
  (invalid_token_rejects_all_mutations sampleStore emptySessions 0 "iso" "p1"
    ⟨"t", "d", "c", "s", "l", "i", [], [], [], false⟩ {} "eng001"
    ⟨"t", "dep", "l", "ty", "d", [], true⟩ {} "stale"
    ⟨"f.jpg", "image/jpeg", "bytes"⟩ "fid" [] rfl).2.2.2.2.2.1

/-- C7: a project or job update carrying a valid token but no non-null
field is rejected with the 400 "No fields to update" error and the store
is returned unchanged — never accepted as a silent no-op. -/
theorem empty_update_rejected (st : Store) (active_sessions : Sessions) (now : Int)
    (nowIso : String) (project_id job_id token : String)
    (pu : ProjectUpdate) (ju : JobUpdate)
    (hv : verify_token active_sessions now token = true)
    (hpu : pu.update_data_isEmpty = true)
    (hju : ju.update_data_isEmpty = true) :
    update_project st active_sessions now nowIso project_id pu token =
      (st, .error 400 "No fields to update")
    ∧ update_job st active_sessions now nowIso job_id ju token =
      (st, .error 400 "No fields to update") := by
  constructor <;> simp [update_project, update_job, hv, hpu, hju]

/-- A one-entry session table whose token `"tok"` is valid at time 0. -/
def sampleSessions : Sessions := (create_session emptySessions "admin" "tok" 0).1

/-- Witness for C7: the all-`none` update payloads are refused with 400
and leave the store untouched. -/
theorem empty_update_rejected_witness :
    update_job sampleStore sampleSessions 0 "iso" "eng001" {} "tok" =
      (sampleStore, .error 400 "No fields to update") :=
  (empty_update_rejected sampleStore sampleSessions 0 "iso" "p1" "eng001" "tok"
    {} {} rfl rfl rfl).2

theorem updateFirst_append_no_match {α : Type} (matchesDoc : α → Bool) (f : α → α)
    (pre : List α) (x : α) (post : List α)
    (hpre : ∀ y ∈ pre, matchesDoc y = false) (hx : matchesDoc x = true) :
    updateFirst matchesDoc f (pre ++ x :: post) = (pre ++ f x :: post, 1) := by
  induction pre with
  | nil => simp [updateFirst, hx]
  | cons hd tl ih =>
    have hhd : matchesDoc hd = false := hpre hd (by simp)
    have ih' := ih (fun y hy => hpre y (by simp [hy]))
    simp [updateFirst, hhd, ih']

/-- C8: an update of an existing job (and likewise of an existing
project) with a valid token and a non-empty payload rewrites exactly the
first matching document: each field explicitly supplied (non-null) in the
payload overwrites the stored value, every omitted field keeps its stored
value, `updated_at` is stamped, `id` and `created_at` are untouched, and
every other document is untouched. -/
theorem update_partial_merge (st : Store) (active_sessions : Sessions) (now : Int)
    (nowIso : String) (token : String) (pre post : List JobDoc) (doc : JobDoc)
    (u : JobUpdate)
    (hv : verify_token active_sessions now token = true)
    (hne : u.update_data_isEmpty = false)
    (hpre : ∀ d ∈ pre, d.id ≠ doc.id)
    (hjobs : st.jobs = pre ++ doc :: post) :
    (update_job st active_sessions now nowIso doc.id u token =
      ({ st with jobs := pre ++ applyJobUpdate doc u nowIso :: post },
       .ok ⟨true, "Job updated"⟩)
    ∧ (applyJobUpdate doc u nowIso).id = doc.id
    ∧ (applyJobUpdate doc u nowIso).title = u.title.getD doc.title
    ∧ (applyJobUpdate doc u nowIso).department = u.department.getD doc.department
    ∧ (applyJobUpdate doc u nowIso).location = u.location.getD doc.location
    ∧ (applyJobUpdate doc u nowIso).type = u.type.getD doc.type
    ∧ (applyJobUpdate doc u nowIso).description = u.description.getD doc.description
    ∧ (applyJobUpdate doc u nowIso).requirements = u.requirements.getD doc.requirements
    ∧ (applyJobUpdate doc u nowIso).is_active = u.is_active.getD doc.is_active
    ∧ (applyJobUpdate doc u nowIso).created_at = doc.created_at
    ∧ (applyJobUpdate doc u nowIso).updated_at = some nowIso)
    ∧ (∀ (pre2 post2 : List ProjectDoc) (doc2 : ProjectDoc) (pu : ProjectUpdate),
        pu.update_data_isEmpty = false →
        (∀ d ∈ pre2, d.id ≠ doc2.id) →
        st.projects = pre2 ++ doc2 :: post2 →
        update_project st active_sessions now nowIso doc2.id pu token =
          ({ st with projects := pre2 ++ applyProjectUpdate doc2 pu nowIso :: post2 },
           .ok ⟨true, "Project updated"⟩)
        ∧ (applyProjectUpdate doc2 pu nowIso).id = doc2.id
        ∧ (applyProjectUpdate doc2 pu nowIso).title = pu.title.getD doc2.title
        ∧ (applyProjectUpdate doc2 pu nowIso).description =
            pu.description.getD doc2.description
        ∧ (applyProjectUpdate doc2 pu nowIso).category = pu.category.getD doc2.category
        ∧ (applyProjectUpdate doc2 pu nowIso).sub_category =
            pu.sub_category.getD doc2.sub_category
        ∧ (applyProjectUpdate doc2 pu nowIso).location = pu.location.getD doc2.location
        ∧ (applyProjectUpdate doc2 pu nowIso).image_url =
            pu.image_url.getD doc2.image_url
        ∧ (applyProjectUpdate doc2 pu nowIso).gallery = pu.gallery.getD doc2.gallery
        ∧ (applyProjectUpdate doc2 pu nowIso).features = pu.features.getD doc2.features
        ∧ (applyProjectUpdate doc2 pu nowIso).highlights =
            pu.highlights.getD doc2.highlights
        ∧ (applyProjectUpdate doc2 pu nowIso).is_featured =
            pu.is_featured.getD doc2.is_featured
        ∧ (applyProjectUpdate doc2 pu nowIso).created_at = doc2.created_at
        ∧ (applyProjectUpdate doc2 pu nowIso).updated_at = some nowIso) := by
  constructor
  · have hmatch : ∀ d ∈ pre, (d.id == doc.id) = false := by
      intro d hd
      simp [hpre d hd]
    have hupd := updateFirst_append_no_match (fun d => d.id == doc.id)
      (fun d => applyJobUpdate d u nowIso) pre doc post hmatch (by simp)
    refine ⟨?_, rfl, rfl, rfl, rfl, rfl, rfl, rfl, rfl, rfl, rfl⟩
    simp [update_job, hv, hne, hjobs, hupd]
  · intro pre2 post2 doc2 pu hne2 hpre2 hprojects
    have hmatch2 : ∀ d ∈ pre2, (d.id == doc2.id) = false := by
      intro d hd
      simp [hpre2 d hd]
    have hupd2 := updateFirst_append_no_match (fun d => d.id == doc2.id)
      (fun d => applyProjectUpdate d pu nowIso) pre2 doc2 post2 hmatch2 (by simp)
    refine ⟨?_, rfl, rfl, rfl, rfl, rfl, rfl, rfl, rfl, rfl, rfl, rfl, rfl, rfl⟩
    simp [update_project, hv, hne2, hprojects, hupd2]

/-- The seeded job document used in witnesses. -/
def sampleJobDoc : JobDoc :=
  { id := "eng001", title := "Project Engineer", department := "Engineering",
    location := "Hyderabad", type := "Full-time",
    description := "Oversee construction projects and ensure quality delivery.",
    requirements := [], is_active := true,
    created_at := "2024-01-01T00:00:00+00:00" }

/-- Witness for C8: updating the stored job with only
`{is_active := false}` succeeds and the new document is the old one with
just `is_active` and `updated_at` changed. -/
theorem update_partial_merge_witness :
    update_job { projects := [], jobs := [sampleJobDoc], enquiries := [] }
      sampleSessions 0 "2024-02-02T00:00:00+00:00" "eng001"
      { is_active := some false } "tok" =
      ({ projects := [],
         jobs := [applyJobUpdate sampleJobDoc { is_active := some false }
           "2024-02-02T00:00:00+00:00"],
         enquiries := [] },
       .ok ⟨true, "Job updated"⟩) :=
  ((update_partial_merge { projects := [], jobs := [sampleJobDoc], enquiries := [] }
    sampleSessions 0 "2024-02-02T00:00:00+00:00" "tok" [] [] sampleJobDoc
    { is_active := some false } (by decide) (by decide) (by simp) rfl).1).1

-- ==================== --
-- Email functions and the enquiry flow (server.py:150-314)
-- ==================== --

/-- The SMTP environment configuration (server.py:54-58). -/
structure EmailConfig where
  zoho_email : String
  zoho_password : String
  recipient_email : String
deriving DecidableEq

/-- A scheduled notification: the arguments passed to
`background_tasks.add_task(send_email_async, ...)`. -/
structure EmailTask where
  to_email : String
  subject : String
  html_content : String
deriving DecidableEq

inductive EmailResult where
  | sent
  | raised (msg : String)
deriving DecidableEq

/-- Python `x or d` on an optional string: `None` and `""` are falsy. -/
def orDefault (x : Option String) (d : String) : String :=
  match x with
  | some s => if s = "" then d else s
  | none => d

/-- The `form_type_label` dict lookup with default `"Website Enquiry"`
(server.py:179-183 and 293-297). -/
def form_type_label (form_type : Option String) : String :=
  if form_type = some "general" then "General Enquiry"
  else if form_type = some "project" then "Project Enquiry"
  else if form_type = some "investment" then "Investment/JV Enquiry"
  else "Website Enquiry"

/-- `create_enquiry_email_html` (server.py:177-247); `submitted` is the
formatted current time the template interpolates. -/
def create_enquiry_email_html (enquiry : EnquiryRequest) (submitted : String) : String :=
  "<!DOCTYPE html>\n<html>\n<head>\n<meta charset=\"utf-8\">\n" ++
  "<meta name=\"viewport\" content=\"width=device-width, initial-scale=1.0\">\n</head>\n" ++
  "<body style=\"margin:0;padding:0;font-family:Arial,sans-serif;background-color:#f5f5f5;\">\n" ++
  "<table width=\"100%\" cellpadding=\"0\" cellspacing=\"0\" style=\"max-width:600px;margin:0 auto;background-color:#ffffff;\">\n" ++
  "<tr><td style=\"background-color:#0A0A0A;padding:24px;text-align:center;\">" ++
  "<h1 style=\"color:#ECC16A;margin:0;font-size:24px;\">Advaithaa Infra</h1></td></tr>\n" ++
  "<tr><td style=\"padding:32px;\">" ++
  "<h2 style=\"color:#0A0A0A;margin:0 0 24px 0;font-size:20px;border-bottom:2px solid #ECC16A;padding-bottom:12px;\">New " ++
  form_type_label enquiry.form_type ++ "</h2>\n" ++
  "<table width=\"100%\" cellpadding=\"8\" cellspacing=\"0\" style=\"font-size:14px;\">\n" ++
  "<tr><td style=\"color:#666;width:120px;vertical-align:top;\"><strong>Name:</strong></td><td style=\"color:#0A0A0A;\">" ++
  enquiry.name ++ "</td></tr>\n" ++
  "<tr><td style=\"color:#666;vertical-align:top;\"><strong>Phone:</strong></td><td style=\"color:#0A0A0A;\"><a href=\"tel:" ++
  enquiry.phone ++ "\" style=\"color:#0A0A0A;text-decoration:none;\">" ++
  enquiry.phone ++ "</a></td></tr>\n" ++
  "<tr><td style=\"color:#666;vertical-align:top;\"><strong>Email:</strong></td><td style=\"color:#0A0A0A;\"><a href=\"mailto:" ++
  orDefault enquiry.email "Not provided" ++
  "\" style=\"color:#0A0A0A;text-decoration:none;\">" ++
  orDefault enquiry.email "Not provided" ++ "</a></td></tr>\n" ++
  "<tr><td style=\"color:#666;vertical-align:top;\"><strong>Project Interest:</strong></td><td style=\"color:#0A0A0A;\">" ++
  orDefault enquiry.project "General Enquiry" ++ "</td></tr>\n" ++
  "<tr><td style=\"color:#666;vertical-align:top;\"><strong>Message:</strong></td><td style=\"color:#0A0A0A;\">" ++
  orDefault enquiry.message "No message provided" ++ "</td></tr>\n" ++
  "</table>\n" ++
  "<div style=\"margin-top:24px;padding:16px;background-color:#f8f8f8;border-left:4px solid #ECC16A;\">" ++
  "<p style=\"margin:0;font-size:12px;color:#666;\"><strong>Submitted:</strong> " ++
  submitted ++ "</p></div>\n" ++
  "</td></tr>\n" ++
  "<tr><td style=\"background-color:#0A0A0A;padding:16px;text-align:center;\">" ++
  "<p style=\"color:#666;margin:0;font-size:12px;\">This enquiry was submitted from the Advaithaa Infra website.</p></td></tr>\n" ++
  "</table>\n</body>\n</html>"

/-- `send_email_sync` (server.py:150-171): with missing credentials it
logs an error and raises; otherwise the SMTP-over-SSL session either
succeeds (logging success) or raises a transport error — `smtp_ok`
selects which. Returns the outcome with the log lines the function
itself writes. -/
def send_email_sync (cfg : EmailConfig) (smtp_ok : Bool) (task : EmailTask) :
    EmailResult × List String :=
  if cfg.zoho_email = "" ∨ cfg.zoho_password = "" then
    (.raised "Email service not configured", ["Zoho SMTP credentials not configured"])
  else if smtp_ok then
    (.sent, ["Email sent successfully to " ++ task.to_email])
  else
    (.raised "SMTP transport failure", [])

/-- `send_email_async` (server.py:173-175): awaits `send_email_sync` on a
worker thread; identical outcome. -/
def send_email_async (cfg : EmailConfig) (smtp_ok : Bool) (task : EmailTask) :
    EmailResult × List String :=
  send_email_sync cfg smtp_ok task

/-- The Starlette background-task boundary: tasks added with
`background_tasks.add_task` run only after the HTTP response has been
sent, and an exception escaping a task is caught and logged at the server
layer — it can no longer reach the already-sent response. Returns the
accumulated log of the scheduled tasks. -/
def run_background_tasks (cfg : EmailConfig) (smtp_ok : Bool)
    (tasks : List EmailTask) : List String :=
  (tasks.map (fun task =>
    match send_email_async cfg smtp_ok task with
    | (.sent, logs) => logs
    | (.raised msg, logs) => logs ++ ["Exception in background task: " ++ msg])).flatten

/-- The enquiry document built by `submit_enquiry` (server.py:279-289). -/
def mkEnquiryDoc (enquiry_id : String) (enquiry : EnquiryRequest) (createdAt : String) :
    EnquiryDoc :=
  { id := enquiry_id, name := enquiry.name, phone := enquiry.phone,
    email := enquiry.email, project := enquiry.project, message := enquiry.message,
    form_type := enquiry.form_type, status := "new", created_at := createdAt }

/-- `submit_enquiry` (server.py:274-314). `insert_raises` selects whether
`db.enquiries.insert_one` raises; the handler-wide `try/except` catches
that exception, logs it, and still answers `success: True` with the
fallback message — in that branch no document is stored and no email task
is scheduled. On the success path the document is appended, a
notification task for the configured recipient is scheduled, and the
success acknowledgement is returned. Result: new store, HTTP response,
scheduled background tasks. -/
def submit_enquiry (st : Store) (cfg : EmailConfig) (enquiry_id : String)
    (nowIso : String) (submitted : String) (enquiry : EnquiryRequest)
    (insert_raises : Bool) : Store × MsgResponse × List EmailTask :=
  if insert_raises then
    (st, ⟨true, "Enquiry submitted. We will contact you soon!"⟩, [])
  else
    let subject := "New " ++ form_type_label enquiry.form_type ++ " from " ++ enquiry.name
    ({ st with enquiries := st.enquiries ++ [mkEnquiryDoc enquiry_id enquiry nowIso] },
     ⟨true, "Enquiry submitted successfully. We will contact you soon!"⟩,
     [⟨cfg.recipient_email, subject, create_enquiry_email_html enquiry submitted⟩])

/-- One whole enquiry request: the handler runs first and fixes the
response, then the background tasks run at the boundary. Result: new
store, the HTTP response, and the background log. -/
def process_enquiry_request (st : Store) (cfg : EmailConfig) (enquiry_id : String)
    (nowIso : String) (submitted : String) (enquiry : EnquiryRequest)
    (insert_raises : Bool) (smtp_ok : Bool) : Store × MsgResponse × List String :=
  let r := submit_enquiry st cfg enquiry_id nowIso submitted enquiry insert_raises
  (r.1, r.2.1, run_background_tasks cfg smtp_ok r.2.2)

/-- The enquiry of the spec example. -/
def sampleEnquiry : EnquiryRequest :=
  { name := "Asha", phone := "9999999999", form_type := some "project" }

/-- C1 fails on the code: when the enquiries insert raises, the broad
`except` of `submit_enquiry` swallows the persistence failure — the
handler still acknowledges `success: True` (message "Enquiry submitted.
We will contact you soon!") although no document was stored, instead of
the server error the spec requires. -/
theorem submit_enquiry_swallows_insert_failure :
    process_enquiry_request sampleStore ⟨"", "", "info@advaithainfra.com"⟩ "abc12345"
      "2024-01-01T00:00:00+00:00" "January 01, 2024 at 12:00 AM UTC" sampleEnquiry
      true true =
      (sampleStore, ⟨true, "Enquiry submitted. We will contact you soon!"⟩, []) := rfl

/-- C2: for every validated enquiry, any mail configuration, and any
transport outcome, when the store write succeeds the handler answers
`success: True`, exactly one new enquiry document with `status = "new"`
and the creation timestamp is appended to the enquiries collection, the
other collections are untouched, and a delivery failure surfaces only in
the log (missing credentials are logged inside `send_email_sync`; a
transport exception is caught and logged at the background-task
boundary) — never in the response. -/
theorem enquiry_success_isolated_from_email (st : Store) (cfg : EmailConfig)
    (enquiry_id nowIso submitted : String) (enquiry : EnquiryRequest) (smtp_ok : Bool) :
    (process_enquiry_request st cfg enquiry_id nowIso submitted enquiry false smtp_ok).2.1 =
      ⟨true, "Enquiry submitted successfully. We will contact you soon!"⟩
    ∧ (process_enquiry_request st cfg enquiry_id nowIso submitted enquiry false
        smtp_ok).1.enquiries = st.enquiries ++ [mkEnquiryDoc enquiry_id enquiry nowIso]
    ∧ (mkEnquiryDoc enquiry_id enquiry nowIso).status = "new"
    ∧ (mkEnquiryDoc enquiry_id enquiry nowIso).created_at = nowIso
    ∧ (process_enquiry_request st cfg enquiry_id nowIso submitted enquiry false
        smtp_ok).1.projects = st.projects
    ∧ (process_enquiry_request st cfg enquiry_id nowIso submitted enquiry false
        smtp_ok).1.jobs = st.jobs
    ∧ (cfg.zoho_email = "" ∨ cfg.zoho_password = "" →
        "Zoho SMTP credentials not configured" ∈
          (process_enquiry_request st cfg enquiry_id nowIso submitted enquiry false
            smtp_ok).2.2)
    ∧ (cfg.zoho_email ≠ "" → cfg.zoho_password ≠ "" → smtp_ok = false →
        "Exception in background task: SMTP transport failure" ∈
          (process_enquiry_request st cfg enquiry_id nowIso submitted enquiry false
            smtp_ok).2.2) := by
  refine ⟨rfl, rfl, rfl, rfl, rfl, rfl, ?_, ?_⟩
  · intro h
    simp [process_enquiry_request, submit_enquiry, run_background_tasks,
      send_email_async, send_email_sync, h]
  · intro he hp hs
    simp [process_enquiry_request, submit_enquiry, run_background_tasks,
      send_email_async, send_email_sync, he, hp, hs]

/-- Witness for C2: with credentials configured but the SMTP transport
failing, the failure lands in the background log while the submission was
acknowledged. -/
theorem enquiry_success_isolated_from_email_witness :
    "Exception in background task: SMTP transport failure" ∈
      (process_enquiry_request sampleStore
        ⟨"noreply@advaithainfra.com", "pw", "info@advaithainfra.com"⟩ "abc12345"
        "2024-01-01T00:00:00+00:00" "January 01, 2024 at 12:00 AM UTC"
        sampleEnquiry false false).2.2 :=
  (enquiry_success_isolated_from_email sampleStore
    ⟨"noreply@advaithainfra.com", "pw", "info@advaithainfra.com"⟩ "abc12345"
    "2024-01-01T00:00:00+00:00" "January 01, 2024 at 12:00 AM UTC"
    sampleEnquiry false).2.2.2.2.2.2.2 (by decide) (by decide) rfl

-- ==================== --
-- C9: pydantic validation of `EnquiryRequest` (server.py:120-126)
-- ==================== --

/-- A JSON field of an incoming request body: absent, explicit null, or a
value. -/
inductive JsonField (α : Type) where
  | absent
  | null
  | val (a : α)
deriving DecidableEq

/-- The raw body of a `POST /enquiry` request before validation. -/
structure RawEnquiry where
  name : JsonField String
  phone : JsonField String
  email : JsonField String
  project : JsonField String
  message : JsonField String
  form_type : JsonField String
deriving DecidableEq

/-- A pydantic `Optional[str]` field with default `d`: an absent field
takes the default, an explicit null becomes `None`, and any string value
is accepted verbatim. -/
def jsonOptional (d : Option String) : JsonField String → Option String
  | .absent => d
  | .null => none
  | .val v => some v

/-- Pydantic validation of `EnquiryRequest` (server.py:120-126): `name`
and `phone` are required `str` fields (absent or null is a validation
error); `email`, `project`, `message` are `Optional[str] = None`;
`form_type` is `Optional[str] = "general"`. No declared validator
constrains `form_type` to an enumerated set — the comment
`# general, project, investment` is only a comment. -/
def EnquiryRequest.validate (r : RawEnquiry) : Option EnquiryRequest :=
  match r.name, r.phone with
  | .val name, .val phone =>
    some { name := name, phone := phone,
           email := jsonOptional none r.email,
           project := jsonOptional none r.project,
           message := jsonOptional none r.message,
           form_type := jsonOptional (some "general") r.form_type }
  | _, _ => none

/-- C9 fails on the code: a submission whose `form_type` is outside
{general, project, investment} passes validation unchanged — it is not
rejected as malformed input. -/
theorem enquiry_form_type_not_rejected :
    EnquiryRequest.validate
      ⟨.val "Asha", .val "9999999999", .absent, .absent, .absent, .val "bogus"⟩ =
      some { name := "Asha", phone := "9999999999", email := none, project := none,
             message := none, form_type := some "bogus" } := rfl

/-- C9 amended: `name` and `phone` are required; `email`, `project`,
`message`, `form_type` are optional; `form_type` defaults to `"general"`
when absent; a supplied `form_type` is accepted verbatim even outside
{general, project, investment} (such values are merely labeled with the
generic "Website Enquiry" downstream, never rejected). -/
theorem enquiry_schema_amended (r : RawEnquiry) :
    ((EnquiryRequest.validate r).isSome = true ↔
      (∃ n, r.name = .val n) ∧ (∃ p, r.phone = .val p))
    ∧ (∀ n p, r.name = .val n → r.phone = .val p → r.form_type = .absent →
        EnquiryRequest.validate r = some
          { name := n, phone := p, email := jsonOptional none r.email,
            project := jsonOptional none r.project,
            message := jsonOptional none r.message, form_type := some "general" })
    ∧ (∀ n p ft, r.name = .val n → r.phone = .val p → r.form_type = .val ft →
        EnquiryRequest.validate r = some
          { name := n, phone := p, email := jsonOptional none r.email,
            project := jsonOptional none r.project,
            message := jsonOptional none r.message, form_type := some ft })
    ∧ (∀ ft, ft ≠ "general" → ft ≠ "project" → ft ≠ "investment" →
        form_type_label (some ft) = "Website Enquiry") := by
  refine ⟨?_, ?_, ?_, ?_⟩
  · cases hn : r.name <;> cases hp : r.phone <;>
      simp [EnquiryRequest.validate, hn, hp]
  · intro n p hn hp hf
    simp [EnquiryRequest.validate, hn, hp, hf, jsonOptional]
  · intro n p ft hn hp hf
    simp [EnquiryRequest.validate, hn, hp, hf, jsonOptional]
  · intro ft h1 h2 h3
    simp [form_type_label, h1, h2, h3]

/-- Witness for C9 amended: a well-formed body with `form_type` absent
validates with the default `"general"`. -/
theorem enquiry_schema_amended_witness :
    EnquiryRequest.validate
      ⟨.val "Asha", .val "9999999999", .absent, .absent, .absent, .absent⟩ =
      some { name := "Asha", phone := "9999999999", email := none, project := none,
             message := none, form_type := some "general" } :=
  (enquiry_schema_amended
    ⟨.val "Asha", .val "9999999999", .absent, .absent, .absent, .absent⟩).2.1
    "Asha" "9999999999" rfl rfl rfl

-- ==================== --
-- C10: seed data (server.py:487-550)
-- ==================== --

/-- The two project documents `seed_data` inserts (server.py:493-520);
the source dicts carry no `gallery` key, rendered here as the empty
list. -/
def seedProjects (nowIso : String) : List ProjectDoc :=
  [{ id := "alkapuri",
     title := "Advaithaa Alkapuri Residences",
     description := "Meticulously crafted apartment project designed to elevate modern urban living, epitomizing luxury, comfort, and convenience.",
     category := "residential", sub_category := "Apartments",
     location := "Alkapuri, Nagole, Hyderabad",
     image_url := "https://images.unsplash.com/photo-1545324418-cc1a3fa10c00?w=800",
     gallery := [],
     features := ["55 Premium 3BHK Units", "2,100 sq.ft each flat", "9,000 sqft Clubhouse", "Swimming Pool", "24/7 Security"],
     highlights := [("area", "4,726 sq.y."), ("floors", "5 floors"), ("units", "55 units")],
     is_featured := true, created_at := nowIso, updated_at := none },
   { id := "narsampalle",
     title := "Narsampalle Premium Plots",
     description := "Invest in Growth, Live with Vision. Prime plots with HMDA-approved layouts and strategic connectivity.",
     category := "plots", sub_category := "Open Plots",
     location := "Narsampalle Village, Keesara Mandal",
     image_url := "https://images.unsplash.com/photo-1500382017468-9049fed747ef?w=800",
     gallery := [],
     features := ["HMDA-Approved", "40\x27 Wide Roads", "Underground Infrastructure", "10,000 SFT Clubhouse"],
     highlights := [("approval", "HMDA Approved"), ("road_width", "40 feet"), ("plot_range", "180-360 sq.y.")],
     is_featured := true, created_at := nowIso, updated_at := none }]

/-- The two job documents `seed_data` inserts (server.py:522-545). -/
def seedJobs (nowIso : String) : List JobDoc :=
  [{ id := "eng001", title := "Project Engineer", department := "Engineering",
     location := "Hyderabad", type := "Full-time",
     description := "Oversee construction projects and ensure quality delivery.",
     requirements := ["B.E/B.Tech in Civil Engineering", "3-5 years experience", "Construction management software knowledge"],
     is_active := true, created_at := nowIso, updated_at := none },
   { id := "sales001", title := "Sales Executive", department := "Sales",
     location := "Hyderabad", type := "Full-time",
     description := "Drive property sales and build customer relationships.",
     requirements := ["Bachelor\x27s degree", "2+ years real estate sales", "Excellent negotiation skills"],
     is_active := true, created_at := nowIso, updated_at := none }]

/-- `seed_data` (server.py:487-550): the `POST /seed-data` route. The
route function takes no token parameter and never calls `verify_token`;
`active_sessions` and `token` are threaded through here solely so their
irrelevance to the outcome can be stated, and the body ignores them
exactly as the source route does. -/
def seed_data (active_sessions : Sessions) (token : String) (st : Store)
    (nowIso : String) : Store × String :=
  if st.projects.length > 0 then (st, "Data already seeded")
  else
    ({ st with projects := st.projects ++ seedProjects nowIso,
               jobs := st.jobs ++ seedJobs nowIso },
     "Data seeded successfully")

/-- C10: on a store whose projects collection is empty, `POST /seed-data`
writes the two seeded project documents and two seeded job documents and
reports success, and its outcome is identical for every session table and
token — no authorization check is performed. -/
theorem seed_data_unauthenticated (active_sessions active_sessions2 : Sessions)
    (token token2 : String) (st : Store) (nowIso : String)
    (h : st.projects = []) :
    (seed_data active_sessions token st nowIso).1.projects = seedProjects nowIso
    ∧ (seed_data active_sessions token st nowIso).1.jobs = st.jobs ++ seedJobs nowIso
    ∧ (seed_data active_sessions token st nowIso).2 = "Data seeded successfully"
    ∧ (seedProjects nowIso).length = 2
    ∧ (seedJobs nowIso).length = 2
    ∧ seed_data active_sessions token st nowIso =
        seed_data active_sessions2 token2 st nowIso := by
  refine ⟨?_, ?_, ?_, rfl, rfl, rfl⟩ <;> simp [seed_data, h]

/-- Witness for C10: seeding the empty store succeeds with no session
state at all. -/
theorem seed_data_unauthenticated_witness :
    (seed_data emptySessions "" sampleStore "2024-01-01T00:00:00+00:00").2 =
      "Data seeded successfully" :=
  (seed_data_unauthenticated emptySessions sampleSessions "" "tok" sampleStore
    "2024-01-01T00:00:00+00:00" rfl).2.2.1
